import Mathlib

/-!
Verification of `scripts/generate-tarot-images.py`.

The script iterates a fixed 78-item catalog of tarot cards; for each card it
skips the item when the output file already exists, otherwise calls the
image-generation API with a bounded retry loop, writes the decoded payload on
success, and finally persists a JSON manifest of outcomes.

The embedding below mirrors the source:
  * `TAROT_CARDS` is the catalog literal (lines 33-121).
  * `generate_image` / `genAttempts` model the retry loop (lines 124-176).
  * `runItems` / `runCatalog` model the main loop (lines 179-238).
  * `run_script` models module start-up: the `OPENAI_API_KEY` check at
    lines 16-20 followed by `main()`.
Time is abstracted to recorded `sleep` events; the HTTP boundary is an oracle
`Nat → ProviderResponse` giving the provider's response to each attempt,
where `ok (some bytes)` is a 200 response whose body decodes to `bytes`,
`ok none` is a 200 response whose body is malformed (the field lookup or
base64 decode raises, landing in the `except` branch), `rateLimited` is a 429
and `err` is any other status or a transport exception.  File-system state is
the list of existing output paths; writes are assumed to succeed.
-/

/-- One catalog entry (lines 33-121): `{"code": ..., "name": ..., "prompt": ...}`. -/
structure Card where
  code : String
  name : String
  prompt : String
deriving DecidableEq

/-- The provider's reaction to one outbound request (lines 150-174). -/
inductive ProviderResponse where
  /-- HTTP 200; `some bytes` when `data["data"][0]["b64_json"]` decodes to
  `bytes`, `none` when the body is malformed and extraction/decoding raises. -/
  | ok (body : Option (List Nat))
  /-- HTTP 429. -/
  | rateLimited
  /-- Any other status, or a transport exception from the request itself. -/
  | err
deriving DecidableEq

/-- Observable events of a run: an outbound request for the item at a given
output path with the composed prompt, a `time.sleep(n)`, and a file write of
the decoded payload to an output path. -/
inductive REvent where
  | request (path : String) (prompt : String)
  | sleep (n : Nat)
  | write (path : String) (bytes : List Nat)
deriving DecidableEq

/-- Mutable state of `main` (lines 188-215): existing output files plus the
three outcome accumulators, and the event trace. -/
structure RunState where
  fs : List String
  generated : List String
  skipped : List String
  failed : List String
  trace : List REvent
deriving DecidableEq

/-- The persisted manifest (lines 229-234). -/
structure Manifest where
  total : Nat
  generated : List String
  skipped : List String
  failed : List String
deriving DecidableEq

/-- `ART_STYLE` (lines 23-30): the fixed style preamble, a triple-quoted
string that starts and ends with a newline. -/
def ART_STYLE : String :=
  "\nArt style: Mystical tarot card illustration with rich symbolism.\nStyle: Art Nouveau meets contemporary digital art, reminiscent of the Rider-Waite deck but modernized.\nColors: Deep jewel tones (sapphire blue, emerald green, amethyst purple, ruby red) with gold accents.\nDetails: Intricate borders with celestial motifs, detailed symbolic imagery, atmospheric lighting.\nQuality: High detail, professional illustration quality, centered composition.\nFormat: Vertical tarot card format with ornate decorative frame.\n"

/-- Line 126: `full_prompt = f"Generate a tarot card illustration: {card_name}. {prompt}. {ART_STYLE}"`. -/
def full_prompt (prompt card_name : String) : String :=
  s!"Generate a tarot card illustration: {card_name}. {prompt}. {ART_STYLE}"

/-- Line 197: `output_path = OUTPUT_DIR / f"{code}.png"`; paths are relative
to the fixed output directory. -/
def output_path (code : String) : String :=
  s!"{code}.png"

set_option maxHeartbeats 2000000 in
/-- The 78-card catalog (lines 33-121), in source order: `code`, `name`, `prompt`. -/
def TAROT_CARDS : List Card := [
  ⟨"major_00_the_fool", "The Fool", "A young traveler in colorful clothes standing at the edge of a cliff, looking up at the sky with innocent joy, a small white dog at their feet, carrying a small bag on a stick, mountains in background, sun rising"⟩,
  ⟨"major_01_the_magician", "The Magician", "A robed figure standing at a table with the four suit symbols (cup, wand, sword, pentacle), one hand pointing to the sky, one to the earth, infinity symbol above head, red and white robes, roses and lilies"⟩,
  ⟨"major_02_the_high_priestess", "The High Priestess", "A serene woman seated between two pillars (one black, one white), crescent moon at her feet, wearing blue robes and a crown with moon phases, holding a scroll, veil with pomegranates behind her"⟩,
  ⟨"major_03_the_empress", "The Empress", "A regal woman on a cushioned throne in a lush garden, wearing a crown of twelve stars, flowing gown with pomegranate pattern, wheat field at her feet, Venus symbol on heart-shaped shield"⟩,
  ⟨"major_04_the_emperor", "The Emperor", "A stern bearded man on a stone throne carved with ram heads, wearing red robes and armor, holding an ankh scepter and orb, mountains behind, commanding presence"⟩,
  ⟨"major_05_the_hierophant", "The Hierophant", "A religious figure in ornate papal robes between two pillars, wearing a triple crown, holding a triple cross scepter, two acolytes kneeling before him, crossed keys at feet"⟩,
  ⟨"major_06_the_lovers", "The Lovers", "A man and woman standing beneath a radiant angel with purple wings, tree of knowledge with serpent behind woman, tree of flames behind man, sun blazing above"⟩,
  ⟨"major_07_the_chariot", "The Chariot", "An armored warrior standing in a canopied chariot pulled by two sphinxes (one black, one white), city behind, starry canopy, crescent moons on shoulders, holding a wand"⟩,
  ⟨"major_08_strength", "Strength", "A gentle woman in white robes calmly closing the jaws of a lion, infinity symbol above her head, flower garland in her hair, serene expression, mountain in background"⟩,
  ⟨"major_09_the_hermit", "The Hermit", "An old bearded figure in gray hooded robes standing on a snowy mountain peak, holding a lantern with a six-pointed star inside, leaning on a staff, looking down from height"⟩,
  ⟨"major_10_wheel_of_fortune", "Wheel of Fortune", "A great golden wheel with mystical symbols, sphinx at top holding sword, snake descending on left, jackal ascending on right, four winged creatures in corners (angel, eagle, lion, bull)"⟩,
  ⟨"major_11_justice", "Justice", "A crowned figure seated between two pillars, holding a raised sword in right hand and balanced scales in left, red and green robes, square crown, purple veil behind"⟩,
  ⟨"major_12_the_hanged_man", "The Hanged Man", "A man suspended upside-down by one foot from a wooden T-shaped cross, other leg bent to form a figure 4, serene face with a halo of light, hands behind back"⟩,
  ⟨"major_13_death", "Death", "A skeleton knight in black armor riding a white horse, carrying a black flag with white rose emblem, figures of all social classes before him, sun rising between two towers in background"⟩,
  ⟨"major_14_temperance", "Temperance", "A winged angel in flowing robes standing with one foot on land and one in water, pouring liquid between two cups, golden path leading to mountains, sun rising over peaks, irises growing"⟩,
  ⟨"major_15_the_devil", "The Devil", "A horned, bat-winged figure with a goat\x27s head perched on a black pedestal, inverted pentagram above, two figures chained loosely to the pedestal, torch lighting"⟩,
  ⟨"major_16_the_tower", "The Tower", "A tall stone tower struck by lightning from dark clouds, crown toppling from top, two figures falling from windows, flames erupting, rain of golden drops falling"⟩,
  ⟨"major_17_the_star", "The Star", "A woman kneeling by a pool, pouring water from two jugs onto land and into water, one large eight-pointed star above with seven smaller stars around it, bird in a tree"⟩,
  ⟨"major_18_the_moon", "The Moon", "A full moon with a face in profile between two towers, a dog and wolf howling, a crayfish emerging from a pool, winding path leading to distant mountains, drops falling from moon"⟩,
  ⟨"major_19_the_sun", "The Sun", "A radiant sun with a human face, a child riding a white horse beneath, arms outstretched joyfully, sunflowers blooming behind a wall, red banner waving"⟩,
  ⟨"major_20_judgement", "Judgement", "An angel blowing a trumpet from clouds, figures rising from coffins below with arms raised, mountains and sea in background, flag with red cross on trumpet"⟩,
  ⟨"major_21_the_world", "The World", "A dancing figure wrapped in purple cloth holding two wands, enclosed in a green laurel wreath, four creatures in corners (angel, eagle, lion, bull), cosmic background"⟩,
  ⟨"minor_wands_ace", "Ace of Wands", "A hand emerging from a cloud grasping a living wooden wand with green leaves sprouting, castle on distant hill, landscape with trees, floating leaves"⟩,
  ⟨"minor_wands_02", "Two of Wands", "A man in red robes standing on castle battlements holding a globe in one hand, wand in other, second wand attached to wall, looking out over sea and mountains"⟩,
  ⟨"minor_wands_03", "Three of Wands", "A merchant figure standing on cliff with back turned, three wands planted beside, watching ships sail on golden sea, expansive horizon"⟩,
  ⟨"minor_wands_04", "Four of Wands", "Four wands forming a canopy decorated with garlands and flowers, two figures celebrating beneath with raised bouquets, castle in background, festive scene"⟩,
  ⟨"minor_wands_05", "Five of Wands", "Five youths in different colored clothes battling with wooden wands, chaotic struggle without clear winner, blue sky background"⟩,
  ⟨"minor_wands_06", "Six of Wands", "A victorious figure on horseback wearing a laurel wreath, holding a wand with wreath attached, crowd with five wands raised in celebration, triumphant procession"⟩,
  ⟨"minor_wands_07", "Seven of Wands", "A young man on a hillside defending his position with a wand against six wands attacking from below, determined expression, precarious stance"⟩,
  ⟨"minor_wands_08", "Eight of Wands", "Eight wands flying diagonally through clear blue sky over a river and landscape, moving swiftly toward their destination, sense of speed and motion"⟩,
  ⟨"minor_wands_09", "Nine of Wands", "A wounded, bandaged man leaning on a wand defensively, eight wands standing like a fence behind him, wary expression, battle-worn appearance"⟩,
  ⟨"minor_wands_10", "Ten of Wands", "A figure struggling to carry ten heavy wands bundled together, walking toward a distant town, bent under the burden, determined stride"⟩,
  ⟨"minor_wands_page", "Page of Wands", "A youth in ornate tunic decorated with salamanders, holding a tall wand and gazing at it with curiosity, desert pyramids in background, feathered cap"⟩,
  ⟨"minor_wands_knight", "Knight of Wands", "An armored knight on a rearing horse, brandishing a wand, salamanders on yellow tunic, pyramids and desert in background, charging forward boldly"⟩,
  ⟨"minor_wands_queen", "Queen of Wands", "A crowned queen on a throne decorated with lions and sunflowers, holding a wand and sunflower, black cat at her feet, confident posture, yellow robes"⟩,
  ⟨"minor_wands_king", "King of Wands", "A crowned king on a throne with salamander and lion motifs, holding a flowering wand, salamander at his feet, red robes, commanding presence"⟩,
  ⟨"minor_cups_ace", "Ace of Cups", "A hand emerging from cloud holding a golden chalice overflowing with five streams of water, dove descending with communion wafer, water lilies floating on pond below"⟩,
  ⟨"minor_cups_02", "Two of Cups", "A young man and woman exchanging cups in a pledge, caduceus with lion head rising between them, winged lion above, symbols of partnership and union"⟩,
  ⟨"minor_cups_03", "Three of Cups", "Three dancing maidens in flowing robes raising golden cups in celebration, garden of fruits and flowers around them, joyful harvest celebration"⟩,
  ⟨"minor_cups_04", "Four of Cups", "A young man sitting cross-legged under a tree, contemplating three cups before him, a hand from cloud offering fourth cup which he doesn\x27t notice"⟩,
  ⟨"minor_cups_05", "Five of Cups", "A cloaked figure in black looking down at three spilled cups, two cups standing behind unnoticed, bridge over river leading to castle in distance"⟩,
  ⟨"minor_cups_06", "Six of Cups", "A boy offering a cup filled with flowers to a girl in a garden, five other cups with flowers nearby, old house in background, nostalgic innocence"⟩,
  ⟨"minor_cups_07", "Seven of Cups", "A silhouetted figure gazing at seven cups floating in clouds, each containing visions: castle, jewels, wreath, dragon, face, snake, glowing figure"⟩,
  ⟨"minor_cups_08", "Eight of Cups", "A cloaked figure walking away from eight stacked cups toward mountains, waning moon in sky, crossing rocky terrain, leaving behind what was built"⟩,
  ⟨"minor_cups_09", "Nine of Cups", "A well-dressed man sitting contentedly on a bench, nine golden cups arranged in an arc on a shelf behind him, arms crossed with satisfaction"⟩,
  ⟨"minor_cups_10", "Ten of Cups", "A joyful couple with arms raised toward a rainbow of ten cups in sky, two dancing children beside them, peaceful cottage and river landscape"⟩,
  ⟨"minor_cups_page", "Page of Cups", "A youth in floral tunic holding a cup from which a fish emerges, standing by the sea, looking at fish with wonder and curiosity"⟩,
  ⟨"minor_cups_knight", "Knight of Cups", "A knight in armor on a calm white horse, holding a golden cup forward, winged helmet, river and trees in background, romantic demeanor"⟩,
  ⟨"minor_cups_queen", "Queen of Cups", "A beautiful queen on a throne by the sea, holding an ornate covered chalice, gazing into it intently, shells and water motifs on throne"⟩,
  ⟨"minor_cups_king", "King of Cups", "A crowned king on a throne floating on turbulent sea, holding cup and scepter calmly, fish amulet, ship in background, master of emotions"⟩,
  ⟨"minor_swords_ace", "Ace of Swords", "A hand emerging from cloud grasping a double-edged sword crowned with a wreath and crown, six mystical drops falling, mountain peak in background"⟩,
  ⟨"minor_swords_02", "Two of Swords", "A blindfolded woman in white seated on stone bench, balancing two crossed swords, crescent moon over calm sea behind her"⟩,
  ⟨"minor_swords_03", "Three of Swords", "A red heart pierced by three swords against a backdrop of storm clouds and rain, dramatic and sorrowful imagery"⟩,
  ⟨"minor_swords_04", "Four of Swords", "A knight lying in repose on a tomb in a church, hands in prayer, three swords on wall above, one beneath, stained glass window"⟩,
  ⟨"minor_swords_05", "Five of Swords", "A smug figure holding three swords watching two dejected figures walk away, two swords on ground, stormy sky, pyrrhic victory"⟩,
  ⟨"minor_swords_06", "Six of Swords", "A ferryman poling a boat with a huddled woman and child, six swords standing in bow, moving from rough to calm waters"⟩,
  ⟨"minor_swords_07", "Seven of Swords", "A figure sneaking away from military camp carrying five swords, two swords left behind, looking back over shoulder, tents in background"⟩,
  ⟨"minor_swords_08", "Eight of Swords", "A blindfolded bound woman surrounded by eight swords stuck in ground, water at her feet, castle on distant cliff, imprisoned by thoughts"⟩,
  ⟨"minor_swords_09", "Nine of Swords", "A figure sitting up in bed in despair, head in hands, nine swords on dark wall behind, quilt decorated with roses and astrological symbols"⟩,
  ⟨"minor_swords_10", "Ten of Swords", "A figure lying face-down with ten swords in their back, dawn breaking over calm water in background, darkest before dawn"⟩,
  ⟨"minor_swords_page", "Page of Swords", "A vigilant youth holding a sword upright, standing on rocky ground, wind blowing clouds and hair, birds in sky, ready stance"⟩,
  ⟨"minor_swords_knight", "Knight of Swords", "An armored knight on a charging horse, sword raised high, cape and horse trappings flying in wind, storm clouds, rushing into battle"⟩,
  ⟨"minor_swords_queen", "Queen of Swords", "A stern queen on a stone throne with butterfly and sylph carvings, holding upright sword, one hand raised, clouds around mountain throne"⟩,
  ⟨"minor_swords_king", "King of Swords", "A crowned king on a throne with butterfly motifs, holding upright sword, purple robes, clear blue sky with clouds, cypress trees"⟩,
  ⟨"minor_pentacles_ace", "Ace of Pentacles", "A hand emerging from cloud holding a golden pentacle coin, lush garden with archway of roses below, path leading to mountains"⟩,
  ⟨"minor_pentacles_02", "Two of Pentacles", "A dancing figure juggling two pentacles connected by an infinity ribbon, two ships on choppy seas in background, balance and adaptability"⟩,
  ⟨"minor_pentacles_03", "Three of Pentacles", "A craftsman working on a cathedral arch showing design to two robed figures (monk and noble), three pentacles in the stonework, collaboration"⟩,
  ⟨"minor_pentacles_04", "Four of Pentacles", "A crowned figure seated, clutching a pentacle to chest, one under each foot, one on crown, city in distant background, possessiveness"⟩,
  ⟨"minor_pentacles_05", "Five of Pentacles", "Two impoverished figures in snow passing a lit stained-glass church window showing five pentacles, one on crutches, cold and destitute"⟩,
  ⟨"minor_pentacles_06", "Six of Pentacles", "A wealthy merchant in red robes holding scales, giving coins to two kneeling beggars, six pentacles arranged around the scene"⟩,
  ⟨"minor_pentacles_07", "Seven of Pentacles", "A young farmer leaning on a hoe, contemplating a bush bearing seven pentacles like fruit, evaluating his harvest, patient work"⟩,
  ⟨"minor_pentacles_08", "Eight of Pentacles", "A craftsman at a workbench carefully carving pentacles, six finished pieces displayed on post, one in hand, city in distance, apprenticeship"⟩,
  ⟨"minor_pentacles_09", "Nine of Pentacles", "An elegant woman in a vineyard with ripe grapes, hooded falcon on gloved hand, nine pentacles in the vines around her, luxury earned"⟩,
  ⟨"minor_pentacles_10", "Ten of Pentacles", "An elderly patriarch under an archway with family (man, woman, child) and dogs, ten pentacles arranged in Tree of Life pattern, estate in background"⟩,
  ⟨"minor_pentacles_page", "Page of Pentacles", "A youth in green tunic standing in flowering meadow, holding up a pentacle and gazing at it with fascination, trees in background"⟩,
  ⟨"minor_pentacles_knight", "Knight of Pentacles", "A knight on a steady black horse, holding a pentacle, plowed field in background, oak leaves on helmet, methodical and reliable"⟩,
  ⟨"minor_pentacles_queen", "Queen of Pentacles", "A crowned queen on a throne decorated with fruit and flowers, holding a pentacle in her lap, rabbit nearby, lush garden throne room"⟩,
  ⟨"minor_pentacles_king", "King of Pentacles", "A crowned king on a throne carved with bull heads, surrounded by vines and grapes, holding pentacle and scepter, castle and gardens behind"⟩]
/-- The body of `for attempt in range(retry_count)` (lines 128-176), run over
the list of remaining attempt indices.  Per attempt: issue the request; on
200 with a well-formed body write the decoded bytes and return `True`; on 200
with a malformed body the extraction raises and the `except` branch sleeps 10
when attempts remain; on 429 sleep 60 unconditionally; on any other status or
a transport exception sleep 10 when attempts remain.  Falling off the loop
returns `False` (line 176). -/
def genAttempts (fp path : String) (p : Nat → ProviderResponse)
    (retry_count : Nat) : List Nat → Bool × List REvent
  | [] => (false, [])
  | attempt :: rest =>
    match p attempt with
    | .ok (some bytes) =>
      (true, [.request path fp, .write path bytes])
    | .ok none =>
      let r := genAttempts fp path p retry_count rest
      (r.1, .request path fp ::
        ((if attempt < retry_count - 1 then [.sleep 10] else []) ++ r.2))
    | .rateLimited =>
      let r := genAttempts fp path p retry_count rest
      (r.1, .request path fp :: .sleep 60 :: r.2)
    | .err =>
      let r := genAttempts fp path p retry_count rest
      (r.1, .request path fp ::
        ((if attempt < retry_count - 1 then [.sleep 10] else []) ++ r.2))

/-- `generate_image(prompt, card_name, output_path, retry_count=3)`
(lines 124-176): composes the full prompt and runs the attempt loop. -/
def generate_image (prompt card_name : String) (path : String)
    (p : Nat → ProviderResponse) (retry_count : Nat := 3) : Bool × List REvent :=
  genAttempts (full_prompt prompt card_name) path p retry_count
    (List.range retry_count)

/-- One iteration of the loop of `main` (lines 193-215), for one card.
If the output path exists, record `skipped` and `continue` — the `continue`
bypasses the inter-item sleep at lines 214-215; otherwise run
`generate_image`, record `generated` or `failed` (adding the file on
success), then, unless this is the last item (`i < len(TAROT_CARDS) - 1`),
sleep 2. -/
def stepItem (p : String → Nat → ProviderResponse) (st : RunState)
    (card : Card) (isLast : Bool) : RunState :=
  if output_path card.code ∈ st.fs then
    { st with skipped := st.skipped ++ [card.code] }
  else
    let r := generate_image card.prompt card.name (output_path card.code)
      (p card.code)
    let st1 :=
      if r.1 then
        { st with fs := st.fs ++ [output_path card.code],
                  generated := st.generated ++ [card.code],
                  trace := st.trace ++ r.2 }
      else
        { st with failed := st.failed ++ [card.code],
                  trace := st.trace ++ r.2 }
    if isLast then st1
    else { st1 with trace := st1.trace ++ [REvent.sleep 2] }

/-- The per-item loop of `main` (lines 193-215): fold `stepItem` over the
catalog; an item is last exactly when no items remain after it. -/
def runItems (p : String → Nat → ProviderResponse) (st : RunState) :
    List Card → RunState
  | [] => st
  | card :: rest => runItems p (stepItem p st card rest.isEmpty) rest

/-- A run of `main`'s loop over a catalog, from an initial set of existing
output files, with empty accumulators (lines 189-191). -/
def runCatalog (catalog : List Card) (p : String → Nat → ProviderResponse)
    (fs0 : List String) : RunState :=
  runItems p ⟨fs0, [], [], [], []⟩ catalog

/-- The manifest built at lines 229-234: `total` is the catalog length, the
three buckets are the accumulators of the run. -/
def mkManifest (catalog : List Card) (st : RunState) : Manifest :=
  ⟨catalog.length, st.generated, st.skipped, st.failed⟩

/-- The manifest persisted by `main()` run over the real catalog. -/
def mainManifest (p : String → Nat → ProviderResponse)
    (fs0 : List String) : Manifest :=
  mkManifest TAROT_CARDS (runCatalog TAROT_CARDS p fs0)

/-- Result of one invocation of the script: exit code, final set of item
output files, the persisted manifest if any, and the event trace. -/
structure ProgramOutcome where
  exitCode : Nat
  fs : List String
  manifest : Option Manifest
  trace : List REvent
deriving DecidableEq

/-- Module start-up plus `main()` (lines 16-20, 179-238, 241-242):
`API_KEY = os.environ.get("OPENAI_API_KEY")`; `if not API_KEY` — true for an
absent variable and for the empty string — prints an error and exits with
code 1 before any item is processed and before any file or manifest is
written; otherwise `main()` runs over the full catalog, writes the manifest
and the process ends with exit code 0. -/
def run_script (env_OPENAI_API_KEY : Option String)
    (fs0 : List String) (p : String → Nat → ProviderResponse) : ProgramOutcome :=
  match env_OPENAI_API_KEY with
  | none => ⟨1, fs0, none, []⟩
  | some key =>
    if key = "" then ⟨1, fs0, none, []⟩
    else
      let st := runCatalog TAROT_CARDS p fs0
      ⟨0, st.fs, some (mkManifest TAROT_CARDS st), st.trace⟩

/-- Contents visible at the output path while the success branch writes the
payload (lines 155-156): `open(output_path, "wb")` creates or truncates the
file, so the path first holds the empty content, then successive prefixes of
the payload as the bytes are written; the write is direct, with no temporary
file or atomic rename. -/
def writeSteps (bytes : List Nat) : List (List Nat) :=
  (List.range (bytes.length + 1)).map (fun k => bytes.take k)

/-! ### Basic facts about the catalog and the attempt loop -/

theorem tarot_length : TAROT_CARDS.length = 78 := by decide

theorem tarot_codes_nodup : (TAROT_CARDS.map Card.code).Nodup := by decide

theorem tarot_paths_nodup :
    (TAROT_CARDS.map (fun c => output_path c.code)).Nodup := by decide

/-- The retry loop never performs the 2-unit inter-item sleep: its sleeps
are the 10-unit retry delay and the 60-unit rate-limit cooldown only. -/
theorem genAttempts_no_sleep_two (fp pa : String) (p : Nat → ProviderResponse)
    (rc : Nat) (l : List Nat) : REvent.sleep 2 ∉ (genAttempts fp pa p rc l).2 := by
  induction l with
  | nil => simp [genAttempts]
  | cons a rest ih =>
    simp only [genAttempts]
    cases hp : p a with
    | ok body =>
      cases body with
      | none =>
        by_cases h : a < rc - 1 <;> simp [h, ih]
      | some bytes => simp
    | rateLimited => simp [ih]
    | err =>
      by_cases h : a < rc - 1 <;> simp [h, ih]

/-- Every write of the retry loop targets the loop's own output path. -/
theorem genAttempts_write_path (fp pa : String) (p : Nat → ProviderResponse)
    (rc : Nat) (l : List Nat) (pa2 : String) (b : List Nat)
    (h : REvent.write pa2 b ∈ (genAttempts fp pa p rc l).2) : pa2 = pa := by
  induction l with
  | nil => simp [genAttempts] at h
  | cons a rest ih =>
    simp only [genAttempts] at h
    cases hp : p a with
    | ok body =>
      cases body with
      | none =>
        rw [hp] at h
        by_cases hlt : a < rc - 1 <;> simp [hlt] at h <;> exact ih h
      | some bytes =>
        rw [hp] at h
        simp at h
        exact h.1
    | rateLimited =>
      rw [hp] at h
      simp at h
      exact ih h
    | err =>
      rw [hp] at h
      by_cases hlt : a < rc - 1 <;> simp [hlt] at h <;> exact ih h

/-- Every request of the retry loop targets the loop's own output path. -/
theorem genAttempts_request_path (fp pa : String) (p : Nat → ProviderResponse)
    (rc : Nat) (l : List Nat) (pa2 fp2 : String)
    (h : REvent.request pa2 fp2 ∈ (genAttempts fp pa p rc l).2) : pa2 = pa := by
  induction l with
  | nil => simp [genAttempts] at h
  | cons a rest ih =>
    simp only [genAttempts] at h
    cases hp : p a with
    | ok body =>
      cases body with
      | none =>
        rw [hp] at h
        by_cases hlt : a < rc - 1 <;> simp [hlt] at h <;>
          rcases h with h | h
        · exact h.1
        · exact ih h
        · exact h.1
        · exact ih h
      | some bytes =>
        rw [hp] at h
        simp at h
        exact h.1
    | rateLimited =>
      rw [hp] at h
      simp at h
      rcases h with h | h
      · exact h.1
      · exact ih h
    | err =>
      rw [hp] at h
      by_cases hlt : a < rc - 1 <;> simp [hlt] at h <;>
        rcases h with h | h
      · exact h.1
      · exact ih h
      · exact h.1
      · exact ih h

/-! ### Structure of the main loop -/

/-- One loop iteration only appends to the file set, the three accumulators
and the trace; nothing is ever removed or edited in place. -/
theorem stepItem_extends (p : String → Nat → ProviderResponse) (st : RunState)
    (card : Card) (b : Bool) : ∃ dfs dg ds df dt,
    stepItem p st card b = ⟨st.fs ++ dfs, st.generated ++ dg,
      st.skipped ++ ds, st.failed ++ df, st.trace ++ dt⟩ := by
  unfold stepItem
  by_cases hmem : output_path card.code ∈ st.fs
  · exact ⟨[], [], [card.code], [], [], by simp [hmem]⟩
  · by_cases hr : (generate_image card.prompt card.name (output_path card.code)
        (p card.code)).1
    · cases b with
      | true =>
        exact ⟨[output_path card.code], [card.code], [], [],
          (generate_image card.prompt card.name (output_path card.code)
            (p card.code)).2, by simp [hmem, hr]⟩
      | false =>
        exact ⟨[output_path card.code], [card.code], [], [],
          (generate_image card.prompt card.name (output_path card.code)
            (p card.code)).2 ++ [REvent.sleep 2], by simp [hmem, hr]⟩
    · cases b with
      | true =>
        exact ⟨[], [], [], [card.code],
          (generate_image card.prompt card.name (output_path card.code)
            (p card.code)).2, by simp [hmem, hr]⟩
      | false =>
        exact ⟨[], [], [], [card.code],
          (generate_image card.prompt card.name (output_path card.code)
            (p card.code)).2 ++ [REvent.sleep 2], by simp [hmem, hr]⟩

/-- A run only appends to the file set, the accumulators and the trace. -/
theorem runItems_extends (p : String → Nat → ProviderResponse)
    (cards : List Card) : ∀ st : RunState, ∃ dfs dg ds df dt,
    runItems p st cards = ⟨st.fs ++ dfs, st.generated ++ dg,
      st.skipped ++ ds, st.failed ++ df, st.trace ++ dt⟩ := by
  induction cards with
  | nil => exact fun st => ⟨[], [], [], [], [], by simp [runItems]⟩
  | cons card rest ih =>
    intro st
    obtain ⟨dfs, dg, ds, df, dt, h1⟩ := stepItem_extends p st card rest.isEmpty
    obtain ⟨efs, eg, es, ef, et, h2⟩ := ih (stepItem p st card rest.isEmpty)
    refine ⟨dfs ++ efs, dg ++ eg, ds ++ es, df ++ ef, dt ++ et, ?_⟩
    show runItems p (stepItem p st card rest.isEmpty) rest = _
    rw [h2, h1]
    simp [List.append_assoc]

theorem runItems_fs_mono (p : String → Nat → ProviderResponse)
    (cards : List Card) (st : RunState) : st.fs ⊆ (runItems p st cards).fs := by
  obtain ⟨dfs, dg, ds, df, dt, h⟩ := runItems_extends p cards st
  rw [h]
  exact List.subset_append_left _ _

theorem runItems_skipped_mono (p : String → Nat → ProviderResponse)
    (cards : List Card) (st : RunState) :
    st.skipped ⊆ (runItems p st cards).skipped := by
  obtain ⟨dfs, dg, ds, df, dt, h⟩ := runItems_extends p cards st
  rw [h]
  exact List.subset_append_left _ _

theorem runItems_failed_mono (p : String → Nat → ProviderResponse)
    (cards : List Card) (st : RunState) :
    st.failed ⊆ (runItems p st cards).failed := by
  obtain ⟨dfs, dg, ds, df, dt, h⟩ := runItems_extends p cards st
  rw [h]
  exact List.subset_append_left _ _

/-- Unfolding equation of the loop. -/
theorem runItems_cons (p : String → Nat → ProviderResponse) (st : RunState)
    (card : Card) (rest : List Card) :
    runItems p st (card :: rest)
      = runItems p (stepItem p st card rest.isEmpty) rest := rfl

/-- Skip branch (lines 202-205): when the output file exists the iteration
only appends the code to `skipped`; in particular no request, no write, no
sleep, and the `continue` bypasses the inter-item delay. -/
theorem stepItem_skip (p : String → Nat → ProviderResponse) (st : RunState)
    (card : Card) (b : Bool) (hmem : output_path card.code ∈ st.fs) :
    stepItem p st card b = { st with skipped := st.skipped ++ [card.code] } := by
  simp [stepItem, hmem]

/-- Success branch: the file and the code are recorded and the attempt
events are appended, plus the inter-item sleep when the item is not last. -/
theorem stepItem_gen (p : String → Nat → ProviderResponse) (st : RunState)
    (card : Card) (b : Bool) (hmem : output_path card.code ∉ st.fs)
    (hr : (generate_image card.prompt card.name (output_path card.code)
      (p card.code)).1 = true) :
    stepItem p st card b =
      { st with fs := st.fs ++ [output_path card.code],
                generated := st.generated ++ [card.code],
                trace := st.trace
                  ++ (generate_image card.prompt card.name (output_path card.code)
                      (p card.code)).2
                  ++ (if b then [] else [REvent.sleep 2]) } := by
  cases b <;> simp [stepItem, hmem, hr]

/-- Failure branch: the code is recorded in `failed`, the attempt events are
appended, plus the inter-item sleep when the item is not last. -/
theorem stepItem_fail (p : String → Nat → ProviderResponse) (st : RunState)
    (card : Card) (b : Bool) (hmem : output_path card.code ∉ st.fs)
    (hr : (generate_image card.prompt card.name (output_path card.code)
      (p card.code)).1 = false) :
    stepItem p st card b =
      { st with failed := st.failed ++ [card.code],
                trace := st.trace
                  ++ (generate_image card.prompt card.name (output_path card.code)
                      (p card.code)).2
                  ++ (if b then [] else [REvent.sleep 2]) } := by
  cases b <;> simp [stepItem, hmem, hr]

/-- Each iteration records its card's code in exactly one outcome bucket. -/
theorem stepItem_count (p : String → Nat → ProviderResponse) (st : RunState)
    (card : Card) (b : Bool) (c : String) :
    (stepItem p st card b).generated.count c
      + (stepItem p st card b).skipped.count c
      + (stepItem p st card b).failed.count c
    = st.generated.count c + st.skipped.count c + st.failed.count c
      + (if card.code = c then 1 else 0) := by
  by_cases hmem : output_path card.code ∈ st.fs
  · rw [stepItem_skip p st card b hmem]
    simp only [List.count_append, List.count_singleton']
    by_cases hc : card.code = c <;> simp [hc] <;> omega
  · by_cases hr : (generate_image card.prompt card.name (output_path card.code)
        (p card.code)).1
    · rw [stepItem_gen p st card b hmem hr]
      simp only [List.count_append, List.count_singleton']
      by_cases hc : card.code = c <;> simp [hc] <;> omega
    · rw [stepItem_fail p st card b hmem (by simpa using hr)]
      simp only [List.count_append, List.count_singleton']
      by_cases hc : card.code = c <;> simp [hc] <;> omega

/-- Each iteration grows the three outcome buckets by exactly one entry. -/
theorem stepItem_len (p : String → Nat → ProviderResponse) (st : RunState)
    (card : Card) (b : Bool) :
    (stepItem p st card b).generated.length
      + (stepItem p st card b).skipped.length
      + (stepItem p st card b).failed.length
    = st.generated.length + st.skipped.length + st.failed.length + 1 := by
  by_cases hmem : output_path card.code ∈ st.fs
  · rw [stepItem_skip p st card b hmem]; simp; omega
  · by_cases hr : (generate_image card.prompt card.name (output_path card.code)
        (p card.code)).1
    · rw [stepItem_gen p st card b hmem hr]; simp; omega
    · rw [stepItem_fail p st card b hmem (by simpa using hr)]; simp; omega

/-- Over a run, the code of each processed card is recorded once: bucket
counts grow by the count of the code in the processed catalog segment. -/
theorem runItems_count (p : String → Nat → ProviderResponse)
    (cards : List Card) : ∀ (st : RunState) (c : String),
    (runItems p st cards).generated.count c
      + (runItems p st cards).skipped.count c
      + (runItems p st cards).failed.count c
    = st.generated.count c + st.skipped.count c + st.failed.count c
      + (cards.map Card.code).count c := by
  induction cards with
  | nil => intro st c; simp [runItems]
  | cons card rest ih =>
    intro st c
    rw [runItems_cons, ih, stepItem_count]
    simp only [List.map_cons, List.count_cons]
    by_cases hc : card.code = c <;> simp [hc] <;> omega

/-- Over a run, the bucket lengths grow by the number of processed cards. -/
theorem runItems_len (p : String → Nat → ProviderResponse)
    (cards : List Card) : ∀ st : RunState,
    (runItems p st cards).generated.length
      + (runItems p st cards).skipped.length
      + (runItems p st cards).failed.length
    = st.generated.length + st.skipped.length + st.failed.length
      + cards.length := by
  induction cards with
  | nil => intro st; simp [runItems]
  | cons card rest ih =>
    intro st
    rw [runItems_cons, ih, stepItem_len]
    simp
    omega

/-- After its iteration, a card's output file exists or the card is failed. -/
theorem stepItem_covers (p : String → Nat → ProviderResponse) (st : RunState)
    (card : Card) (b : Bool) :
    output_path card.code ∈ (stepItem p st card b).fs
      ∨ card.code ∈ (stepItem p st card b).failed := by
  by_cases hmem : output_path card.code ∈ st.fs
  · rw [stepItem_skip p st card b hmem]
    exact Or.inl hmem
  · by_cases hr : (generate_image card.prompt card.name (output_path card.code)
        (p card.code)).1
    · rw [stepItem_gen p st card b hmem hr]
      simp
    · rw [stepItem_fail p st card b hmem (by simpa using hr)]
      simp

/-- After a full run, every processed card has its output file on disk or is
recorded in `failed`. -/
theorem runItems_covers (p : String → Nat → ProviderResponse)
    (cards : List Card) : ∀ (st : RunState) (card : Card), card ∈ cards →
    output_path card.code ∈ (runItems p st cards).fs
      ∨ card.code ∈ (runItems p st cards).failed := by
  induction cards with
  | nil => intro st card h; simp at h
  | cons hd rest ih =>
    intro st card hcard
    rw [runItems_cons]
    rcases List.mem_cons.mp hcard with h | h
    · subst h
      rcases stepItem_covers p st card rest.isEmpty with h | h
      · exact Or.inl (runItems_fs_mono p rest _ h)
      · exact Or.inr (runItems_failed_mono p rest _ h)
    · exact ih _ card h

/-- When every card of the segment already has its output file, the run
records them all as skipped, in catalog order, and does nothing else: no
request, no write, no sleep, no file change. -/
theorem runItems_all_skipped (p : String → Nat → ProviderResponse)
    (cards : List Card) : ∀ st : RunState,
    (∀ card ∈ cards, output_path card.code ∈ st.fs) →
    runItems p st cards
      = { st with skipped := st.skipped ++ cards.map Card.code } := by
  induction cards with
  | nil => intro st _; simp [runItems]
  | cons hd rest ih =>
    intro st hall
    rw [runItems_cons, stepItem_skip p st hd rest.isEmpty (hall hd (by simp))]
    rw [ih { st with skipped := st.skipped ++ [hd.code] }
      (fun card hc => hall card (by simp [hc]))]
    simp

/-- A card whose output file exists at the start of the run is recorded as
skipped (files are never removed during a run). -/
theorem runItems_skip_recorded (p : String → Nat → ProviderResponse)
    (cards : List Card) : ∀ (st : RunState) (card : Card), card ∈ cards →
    output_path card.code ∈ st.fs →
    card.code ∈ (runItems p st cards).skipped := by
  induction cards with
  | nil => intro st card h; simp at h
  | cons hd rest ih =>
    intro st card hcard hmem
    rw [runItems_cons]
    rcases List.mem_cons.mp hcard with h | h
    · subst h
      have : card.code ∈ (stepItem p st card rest.isEmpty).skipped := by
        rw [stepItem_skip p st card rest.isEmpty hmem]
        simp
      exact runItems_skipped_mono p rest _ this
    · obtain ⟨dfs, dg, ds, df, dt, hext⟩ :=
        stepItem_extends p st hd rest.isEmpty
      exact ih _ card h (by rw [hext]; exact List.mem_append_left _ hmem)

/-- Any write recorded during an iteration either predates it or targets the
iteration's own card, whose output file did not exist. -/
theorem stepItem_write (p : String → Nat → ProviderResponse) (st : RunState)
    (card : Card) (b : Bool) (pa : String) (bts : List Nat)
    (h : REvent.write pa bts ∈ (stepItem p st card b).trace) :
    REvent.write pa bts ∈ st.trace ∨ pa ∉ st.fs := by
  by_cases hmem : output_path card.code ∈ st.fs
  · rw [stepItem_skip p st card b hmem] at h
    exact Or.inl h
  · by_cases hr : (generate_image card.prompt card.name (output_path card.code)
        (p card.code)).1
    · rw [stepItem_gen p st card b hmem hr] at h
      simp only [List.mem_append] at h
      rcases h with (h | h) | h
      · exact Or.inl h
      · exact Or.inr (genAttempts_write_path _ _ _ _ _ _ _ h ▸ hmem)
      · cases b <;> simp at h
    · rw [stepItem_fail p st card b hmem (by simpa using hr)] at h
      simp only [List.mem_append] at h
      rcases h with (h | h) | h
      · exact Or.inl h
      · exact Or.inr (genAttempts_write_path _ _ _ _ _ _ _ h ▸ hmem)
      · cases b <;> simp at h

/-- Any request issued during an iteration either predates it or targets the
iteration's own card, whose output file did not exist. -/
theorem stepItem_request (p : String → Nat → ProviderResponse) (st : RunState)
    (card : Card) (b : Bool) (pa fp : String)
    (h : REvent.request pa fp ∈ (stepItem p st card b).trace) :
    REvent.request pa fp ∈ st.trace ∨ pa ∉ st.fs := by
  by_cases hmem : output_path card.code ∈ st.fs
  · rw [stepItem_skip p st card b hmem] at h
    exact Or.inl h
  · by_cases hr : (generate_image card.prompt card.name (output_path card.code)
        (p card.code)).1
    · rw [stepItem_gen p st card b hmem hr] at h
      simp only [List.mem_append] at h
      rcases h with (h | h) | h
      · exact Or.inl h
      · exact Or.inr (genAttempts_request_path _ _ _ _ _ _ _ h ▸ hmem)
      · cases b <;> simp at h
    · rw [stepItem_fail p st card b hmem (by simpa using hr)] at h
      simp only [List.mem_append] at h
      rcases h with (h | h) | h
      · exact Or.inl h
      · exact Or.inr (genAttempts_request_path _ _ _ _ _ _ _ h ▸ hmem)
      · cases b <;> simp at h

/-- Every file written during a run was absent when the run started: a run
never overwrites an output file that predates it. -/
theorem runItems_write_new (p : String → Nat → ProviderResponse)
    (cards : List Card) : ∀ (st : RunState) (pa : String) (bts : List Nat),
    REvent.write pa bts ∈ (runItems p st cards).trace →
    REvent.write pa bts ∈ st.trace ∨ pa ∉ st.fs := by
  induction cards with
  | nil => intro st pa bts h; exact Or.inl h
  | cons hd rest ih =>
    intro st pa bts h
    rw [runItems_cons] at h
    rcases ih _ pa bts h with h2 | h2
    · exact stepItem_write p st hd rest.isEmpty pa bts h2
    · obtain ⟨dfs, dg, ds, df, dt, hext⟩ := stepItem_extends p st hd rest.isEmpty
      rw [hext] at h2
      exact Or.inr (fun hc => h2 (List.mem_append_left _ hc))

/-- Every request issued during a run targets an item whose output file was
absent when the run started: existing items never cause an attempt. -/
theorem runItems_request_new (p : String → Nat → ProviderResponse)
    (cards : List Card) : ∀ (st : RunState) (pa fp : String),
    REvent.request pa fp ∈ (runItems p st cards).trace →
    REvent.request pa fp ∈ st.trace ∨ pa ∉ st.fs := by
  induction cards with
  | nil => intro st pa fp h; exact Or.inl h
  | cons hd rest ih =>
    intro st pa fp h
    rw [runItems_cons] at h
    rcases ih _ pa fp h with h2 | h2
    · exact stepItem_request p st hd rest.isEmpty pa fp h2
    · obtain ⟨dfs, dg, ds, df, dt, hext⟩ := stepItem_extends p st hd rest.isEmpty
      rw [hext] at h2
      exact Or.inr (fun hc => h2 (List.mem_append_left _ hc))

/-- Each iteration appends to each bucket at most its own card's code. -/
theorem stepItem_sublists (p : String → Nat → ProviderResponse) (st : RunState)
    (card : Card) (b : Bool) : ∃ dg ds df,
    (stepItem p st card b).generated = st.generated ++ dg
      ∧ (stepItem p st card b).skipped = st.skipped ++ ds
      ∧ (stepItem p st card b).failed = st.failed ++ df
      ∧ List.Sublist dg [card.code] ∧ List.Sublist ds [card.code]
      ∧ List.Sublist df [card.code] := by
  by_cases hmem : output_path card.code ∈ st.fs
  · rw [stepItem_skip p st card b hmem]
    exact ⟨[], [card.code], [], by simp⟩
  · by_cases hr : (generate_image card.prompt card.name (output_path card.code)
        (p card.code)).1
    · rw [stepItem_gen p st card b hmem hr]
      exact ⟨[card.code], [], [], by simp⟩
    · rw [stepItem_fail p st card b hmem (by simpa using hr)]
      exact ⟨[], [], [card.code], by simp⟩

/-- The outcome buckets list codes in catalog order: a run extends each
bucket by a subsequence of the codes of the processed catalog segment. -/
theorem runItems_sublists (p : String → Nat → ProviderResponse)
    (cards : List Card) : ∀ st : RunState, ∃ dg ds df,
    (runItems p st cards).generated = st.generated ++ dg
      ∧ (runItems p st cards).skipped = st.skipped ++ ds
      ∧ (runItems p st cards).failed = st.failed ++ df
      ∧ List.Sublist dg (cards.map Card.code)
      ∧ List.Sublist ds (cards.map Card.code)
      ∧ List.Sublist df (cards.map Card.code) := by
  induction cards with
  | nil => exact fun st => ⟨[], [], [], by simp [runItems]⟩
  | cons hd rest ih =>
    intro st
    obtain ⟨dg, ds, df, hg, hs, hf, sg, ss, sf⟩ :=
      stepItem_sublists p st hd rest.isEmpty
    obtain ⟨eg, es, ef, hg2, hs2, hf2, sg2, ss2, sf2⟩ :=
      ih (stepItem p st hd rest.isEmpty)
    refine ⟨dg ++ eg, ds ++ es, df ++ ef, ?_, ?_, ?_, ?_, ?_, ?_⟩
    · rw [runItems_cons, hg2, hg, List.append_assoc]
    · rw [runItems_cons, hs2, hs, List.append_assoc]
    · rw [runItems_cons, hf2, hf, List.append_assoc]
    · simpa using List.Sublist.append sg sg2
    · simpa using List.Sublist.append ss ss2
    · simpa using List.Sublist.append sf sf2

/-- The iteration's file-set delta is at most its own card's output path. -/
theorem stepItem_fs_delta (p : String → Nat → ProviderResponse)
    (st : RunState) (card : Card) (b : Bool) : ∃ d,
    (stepItem p st card b).fs = st.fs ++ d ∧ d ⊆ [output_path card.code] := by
  by_cases hmem : output_path card.code ∈ st.fs
  · rw [stepItem_skip p st card b hmem]
    exact ⟨[], by simp⟩
  · by_cases hr : (generate_image card.prompt card.name (output_path card.code)
        (p card.code)).1
    · rw [stepItem_gen p st card b hmem hr]
      exact ⟨[output_path card.code], by simp⟩
    · rw [stepItem_fail p st card b hmem (by simpa using hr)]
      exact ⟨[], by simp⟩

/-- An iteration that actually attempts its card (no existing file) performs
the inter-item sleep exactly when the card is not last; an iteration that
skips performs no sleep at all. -/
theorem stepItem_sleep2 (p : String → Nat → ProviderResponse) (st : RunState)
    (card : Card) (b : Bool) :
    (stepItem p st card b).trace.count (REvent.sleep 2)
      = st.trace.count (REvent.sleep 2)
        + (if output_path card.code ∈ st.fs then 0 else if b then 0 else 1) := by
  by_cases hmem : output_path card.code ∈ st.fs
  · rw [stepItem_skip p st card b hmem]
    simp [hmem]
  · have hgen : ((generate_image card.prompt card.name (output_path card.code)
        (p card.code)).2).count (REvent.sleep 2) = 0 :=
      List.count_eq_zero.mpr (genAttempts_no_sleep_two _ _ _ _ _)
    by_cases hr : (generate_image card.prompt card.name (output_path card.code)
        (p card.code)).1
    · rw [stepItem_gen p st card b hmem hr]
      cases b <;> simp [hmem, List.count_append, hgen]
    · rw [stepItem_fail p st card b hmem (by simpa using hr)]
      cases b <;> simp [hmem, List.count_append, hgen]

/-- Inter-item pauses over a run: when the catalog paths are distinct and
none of the files created by the run itself collides with a later card, the
number of 2-unit sleeps equals the number of non-last cards whose output
file was absent at the start of the run — skipped cards contribute no pause. -/
theorem runItems_sleep2 (p : String → Nat → ProviderResponse) :
    ∀ (cards : List Card) (st : RunState) (fs0 gs : List String),
    st.fs = fs0 ++ gs →
    (∀ c ∈ cards, output_path c.code ∉ gs) →
    (cards.map (fun c => output_path c.code)).Nodup →
    (runItems p st cards).trace.count (REvent.sleep 2)
      = st.trace.count (REvent.sleep 2)
        + List.countP (fun c => decide (output_path c.code ∉ fs0))
            cards.dropLast := by
  intro cards
  induction cards with
  | nil => intro st fs0 gs hfs hgs hnd; simp [runItems]
  | cons hd rest ih =>
    intro st fs0 gs hfs hgs hnd
    rw [runItems_cons]
    obtain ⟨d, hd_fs, hdsub⟩ := stepItem_fs_delta p st hd rest.isEmpty
    have hnd' : (rest.map (fun c => output_path c.code)).Nodup := by
      simpa using hnd.of_cons
    have hhd_not : output_path hd.code ∉ rest.map (fun c => output_path c.code) := by
      have := hnd
      simp only [List.map_cons, List.nodup_cons] at this
      exact this.1
    have hgs' : ∀ c ∈ rest, output_path c.code ∉ gs ++ d := by
      intro c hc
      simp only [List.mem_append]
      rintro (h | h)
      · exact hgs c (by simp [hc]) h
      · have heq : output_path c.code = output_path hd.code :=
          List.mem_singleton.mp (hdsub h)
        exact hhd_not (heq ▸ List.mem_map_of_mem _ hc)
    have hstep_fs : (stepItem p st hd rest.isEmpty).fs = fs0 ++ (gs ++ d) := by
      rw [hd_fs, hfs, List.append_assoc]
    rw [ih (stepItem p st hd rest.isEmpty) fs0 (gs ++ d) hstep_fs hgs' hnd']
    rw [stepItem_sleep2]
    cases rest with
    | nil =>
      simp [List.dropLast]
    | cons r rs =>
      have hne : ¬(r :: rs).isEmpty := by simp
      simp only [List.isEmpty_cons, List.dropLast_cons₂, List.countP_cons]
      by_cases hmem : output_path hd.code ∈ st.fs
      · have hmem0 : output_path hd.code ∈ fs0 := by
          rw [hfs] at hmem
          rcases List.mem_append.mp hmem with h | h
          · exact h
          · exact absurd h (hgs hd (by simp))
        simp [hmem, hmem0]
        try omega
      · have hmem0 : output_path hd.code ∉ fs0 := by
          rw [hfs] at hmem
          exact fun h => hmem (List.mem_append_left _ h)
        simp [hmem, hmem0]
        try omega

/-- A 200 response with a malformed body is handled exactly like a generic
error response: replacing every malformed-OK answer of the provider by a
generic error changes nothing about the attempt loop's behaviour. -/
theorem genAttempts_ok_none_as_err (fp pa : String)
    (p : Nat → ProviderResponse) (rc : Nat) (l : List Nat) :
    genAttempts fp pa
      (fun n => match p n with | .ok none => .err | r => r) rc l
      = genAttempts fp pa p rc l := by
  induction l with
  | nil => simp [genAttempts]
  | cons a rest ih =>
    simp only [genAttempts]
    cases hp : p a with
    | ok body =>
      cases body with
      | none => simp [hp, ih]
      | some bytes => simp [hp]
    | rateLimited => simp [hp, ih]
    | err => simp [hp, ih]

/-- Recognizer for outbound-request events. -/
def isRequest : REvent → Bool
  | .request _ _ => true
  | _ => false

theorem range_three : List.range 3 = [0, 1, 2] := rfl

/-- A provider that always answers with a generic error: the item is
attempted exactly 3 times, with a 10-unit sleep between consecutive attempts
and none after the last, and the call reports failure. -/
theorem generate_image_always_err (prompt name pa : String)
    (p : Nat → ProviderResponse) (h : ∀ n, p n = .err) :
    generate_image prompt name pa p
      = (false, [.request pa (full_prompt prompt name), .sleep 10,
                 .request pa (full_prompt prompt name), .sleep 10,
                 .request pa (full_prompt prompt name)]) := by
  unfold generate_image
  rw [range_three]
  simp [genAttempts, h]

/-- A provider that always rate-limits: the item is attempted exactly
3 times, each attempt followed by the unconditional 60-unit cooldown, and
the call reports failure once the attempt budget is exhausted. -/
theorem generate_image_always_rl (prompt name pa : String)
    (p : Nat → ProviderResponse) (h : ∀ n, p n = .rateLimited) :
    generate_image prompt name pa p
      = (false, [.request pa (full_prompt prompt name), .sleep 60,
                 .request pa (full_prompt prompt name), .sleep 60,
                 .request pa (full_prompt prompt name), .sleep 60]) := by
  unfold generate_image
  rw [range_three]
  simp [genAttempts, h]

/-- A provider whose 200 responses always carry a malformed body: the
behaviour is byte-for-byte the generic-error behaviour — 3 attempts, 10-unit
sleeps between them, no write, failure. -/
theorem generate_image_always_oknone (prompt name pa : String)
    (p : Nat → ProviderResponse) (h : ∀ n, p n = .ok none) :
    generate_image prompt name pa p
      = (false, [.request pa (full_prompt prompt name), .sleep 10,
                 .request pa (full_prompt prompt name), .sleep 10,
                 .request pa (full_prompt prompt name)]) := by
  unfold generate_image
  rw [range_three]
  simp [genAttempts, h]

/-- First attempt succeeds: one request, one write, success. -/
theorem generate_image_first_ok (prompt name pa : String)
    (p : Nat → ProviderResponse) (bytes : List Nat)
    (h0 : p 0 = .ok (some bytes)) :
    generate_image prompt name pa p
      = (true, [.request pa (full_prompt prompt name), .write pa bytes]) := by
  unfold generate_image
  rw [range_three]
  simp [genAttempts, h0]

/-- Rate-limited once, then success: the 60-unit cooldown separates the two
requests and the item succeeds on the retry. -/
theorem generate_image_rl_then_ok (prompt name pa : String)
    (p : Nat → ProviderResponse) (bytes : List Nat)
    (h0 : p 0 = .rateLimited) (h1 : p 1 = .ok (some bytes)) :
    generate_image prompt name pa p
      = (true, [.request pa (full_prompt prompt name), .sleep 60,
                .request pa (full_prompt prompt name), .write pa bytes]) := by
  unfold generate_image
  rw [range_three]
  simp [genAttempts, h0, h1]

/-- A one-card catalog over an empty directory, when generation succeeds. -/
theorem runCatalog_single_gen (card : Card)
    (P : String → Nat → ProviderResponse)
    (h : (generate_image card.prompt card.name (output_path card.code)
      (P card.code)).1 = true) :
    runCatalog [card] P []
      = ⟨[output_path card.code], [card.code], [], [],
         (generate_image card.prompt card.name (output_path card.code)
           (P card.code)).2⟩ := by
  show runItems P (stepItem P ⟨[], [], [], [], []⟩ card true) [] = _
  rw [stepItem_gen P ⟨[], [], [], [], []⟩ card true (by simp) h]
  simp [runItems]

/-- A one-card catalog over an empty directory, when generation fails. -/
theorem runCatalog_single_fail (card : Card)
    (P : String → Nat → ProviderResponse)
    (h : (generate_image card.prompt card.name (output_path card.code)
      (P card.code)).1 = false) :
    runCatalog [card] P []
      = ⟨[], [], [], [card.code],
         (generate_image card.prompt card.name (output_path card.code)
           (P card.code)).2⟩ := by
  show runItems P (stepItem P ⟨[], [], [], [], []⟩ card true) [] = _
  rw [stepItem_fail P ⟨[], [], [], [], []⟩ card true (by simp) h]
  simp [runItems]

/-! ### The claims -/

/-- C1: After a complete run over the 78-item catalog, every catalog item id
appears in exactly one of the generated/skipped/failed lists, the lists are
pairwise disjoint, the sum of their lengths equals the manifest's `total`
field, and `total` equals the catalog length 78. -/
theorem claim_C1 (fs0 : List String) (p : String → Nat → ProviderResponse) :
    (∀ card ∈ TAROT_CARDS,
      (mainManifest p fs0).generated.count card.code
        + (mainManifest p fs0).skipped.count card.code
        + (mainManifest p fs0).failed.count card.code = 1)
    ∧ (∀ c : String,
        ¬(c ∈ (mainManifest p fs0).generated ∧ c ∈ (mainManifest p fs0).skipped)
        ∧ ¬(c ∈ (mainManifest p fs0).generated ∧ c ∈ (mainManifest p fs0).failed)
        ∧ ¬(c ∈ (mainManifest p fs0).skipped ∧ c ∈ (mainManifest p fs0).failed))
    ∧ (mainManifest p fs0).generated.length + (mainManifest p fs0).skipped.length
        + (mainManifest p fs0).failed.length = (mainManifest p fs0).total
    ∧ (mainManifest p fs0).total = 78 := by
  have hcount : ∀ c : String,
      (mainManifest p fs0).generated.count c
        + (mainManifest p fs0).skipped.count c
        + (mainManifest p fs0).failed.count c
      = (TAROT_CARDS.map Card.code).count c := by
    intro c
    have := runItems_count p TAROT_CARDS ⟨fs0, [], [], [], []⟩ c
    simpa [mainManifest, mkManifest, runCatalog] using this
  refine ⟨?_, ?_, ?_, ?_⟩
  · intro card hcard
    rw [hcount card.code]
    exact List.count_eq_one_of_mem tarot_codes_nodup
      (List.mem_map_of_mem Card.code hcard)
  · intro c
    have hle : (TAROT_CARDS.map Card.code).count c ≤ 1 :=
      List.nodup_iff_count_le_one.mp tarot_codes_nodup c
    have h := hcount c
    refine ⟨?_, ?_, ?_⟩ <;>
      rintro ⟨h1, h2⟩ <;>
      · have p1 := List.count_pos_iff.mpr h1
        have p2 := List.count_pos_iff.mpr h2
        omega
  · have := runItems_len p TAROT_CARDS ⟨fs0, [], [], [], []⟩
    simpa [mainManifest, mkManifest, runCatalog] using this
  · simpa [mainManifest, mkManifest] using tarot_length

set_option maxRecDepth 8000 in
/-- Witness for C1 at a concrete run: the always-erring provider over an
empty directory; the first catalog id is recorded exactly once and the
manifest's total is 78. -/
theorem claim_C1_witness :
    (mainManifest (fun _ _ => ProviderResponse.err) []).generated.count "major_00_the_fool"
      + (mainManifest (fun _ _ => ProviderResponse.err) []).skipped.count "major_00_the_fool"
      + (mainManifest (fun _ _ => ProviderResponse.err) []).failed.count "major_00_the_fool" = 1
    ∧ (mainManifest (fun _ _ => ProviderResponse.err) []).total = 78 :=
  ⟨(claim_C1 [] (fun _ _ => ProviderResponse.err)).1
      ⟨"major_00_the_fool", "The Fool", "A young traveler in colorful clothes standing at the edge of a cliff, looking up at the sky with innocent joy, a small white dog at their feet, carrying a small bag on a stick, mountains in background, sun rising"⟩
      (by decide),
   (claim_C1 [] (fun _ _ => ProviderResponse.err)).2.2.2⟩

/-- C2 counterexample: a provider that always rate-limits does NOT make the
per-item loop run forever, and the item IS recorded as `Failed`: the 429
branch sits inside `for attempt in range(retry_count)`, so each rate-limited
attempt consumes the budget; after 3 attempts the loop ends and the one-card
run records the item in `failed`, having issued exactly 3 requests. -/
theorem claim_C2_counterexample :
    (runCatalog [⟨"c0", "n0", "p0"⟩]
        (fun _ _ => ProviderResponse.rateLimited) []).failed = ["c0"]
    ∧ (runCatalog [⟨"c0", "n0", "p0"⟩]
        (fun _ _ => ProviderResponse.rateLimited) []).trace.countP isRequest = 3 := by
  rw [runCatalog_single_fail ⟨"c0", "n0", "p0"⟩
    (fun _ _ => ProviderResponse.rateLimited)
    (by rw [generate_image_always_rl _ _ _ _ (fun _ => rfl)]),
    generate_image_always_rl _ _ _ _ (fun _ => rfl)]
  refine ⟨rfl, ?_⟩
  simp [List.countP_cons, isRequest]

/-- C2 (amended): on a rate-limit signal the runner waits the fixed 60-unit
cooldown and retries, but the rate-limited attempt counts against the
3-attempt budget: for an item whose provider always rate-limits the loop
performs exactly 3 attempts, each followed by the 60-unit cooldown, then
terminates with failure and the item is recorded as `Failed`. -/
theorem claim_C2 (prompt name pa : String) (p : Nat → ProviderResponse)
    (hp : ∀ n, p n = .rateLimited) (card : Card)
    (P : String → Nat → ProviderResponse)
    (hP : ∀ n, P card.code n = .rateLimited) :
    generate_image prompt name pa p
      = (false, [.request pa (full_prompt prompt name), .sleep 60,
                 .request pa (full_prompt prompt name), .sleep 60,
                 .request pa (full_prompt prompt name), .sleep 60])
    ∧ (runCatalog [card] P []).failed = [card.code] := by
  refine ⟨generate_image_always_rl prompt name pa p hp, ?_⟩
  rw [runCatalog_single_fail card P
    (by rw [generate_image_always_rl _ _ _ _ hP])]

/-- Witness for C2 at the always-rate-limiting provider and a concrete card. -/
theorem claim_C2_witness :
    generate_image "p1" "n1" "c1.png" (fun _ => ProviderResponse.rateLimited)
      = (false, [.request "c1.png" (full_prompt "p1" "n1"), .sleep 60,
                 .request "c1.png" (full_prompt "p1" "n1"), .sleep 60,
                 .request "c1.png" (full_prompt "p1" "n1"), .sleep 60])
    ∧ (runCatalog [⟨"c1", "n1", "p1"⟩]
        (fun _ _ => ProviderResponse.rateLimited) []).failed = ["c1"] :=
  claim_C2 "p1" "n1" "c1.png" (fun _ => ProviderResponse.rateLimited)
    (fun _ => rfl) ⟨"c1", "n1", "p1"⟩
    (fun _ _ => ProviderResponse.rateLimited) (fun _ => rfl)

/-- C4: given a provider that always returns a generic error, an item is
attempted exactly 3 times before being recorded as `Failed`, with a fixed
10-unit delay between consecutive attempts and no delay after the final
attempt. -/
theorem claim_C4 (prompt name pa : String) (p : Nat → ProviderResponse)
    (hp : ∀ n, p n = .err) (card : Card)
    (P : String → Nat → ProviderResponse)
    (hP : ∀ n, P card.code n = .err) :
    generate_image prompt name pa p
      = (false, [.request pa (full_prompt prompt name), .sleep 10,
                 .request pa (full_prompt prompt name), .sleep 10,
                 .request pa (full_prompt prompt name)])
    ∧ (runCatalog [card] P []).failed = [card.code]
    ∧ (runCatalog [card] P []).trace.countP isRequest = 3 := by
  refine ⟨generate_image_always_err prompt name pa p hp, ?_, ?_⟩
  · rw [runCatalog_single_fail card P
      (by rw [generate_image_always_err _ _ _ _ hP])]
  · rw [runCatalog_single_fail card P
      (by rw [generate_image_always_err _ _ _ _ hP]),
      generate_image_always_err _ _ _ _ hP]
    simp [List.countP_cons, isRequest]

/-- Witness for C4 at the always-erring provider and a concrete card. -/
theorem claim_C4_witness :
    generate_image "p2" "n2" "c2.png" (fun _ => ProviderResponse.err)
      = (false, [.request "c2.png" (full_prompt "p2" "n2"), .sleep 10,
                 .request "c2.png" (full_prompt "p2" "n2"), .sleep 10,
                 .request "c2.png" (full_prompt "p2" "n2")])
    ∧ (runCatalog [⟨"c2", "n2", "p2"⟩]
        (fun _ _ => ProviderResponse.err) []).failed = ["c2"]
    ∧ (runCatalog [⟨"c2", "n2", "p2"⟩]
        (fun _ _ => ProviderResponse.err) []).trace.countP isRequest = 3 :=
  claim_C4 "p2" "n2" "c2.png" (fun _ => ProviderResponse.err) (fun _ => rfl)
    ⟨"c2", "n2", "p2"⟩ (fun _ _ => ProviderResponse.err) (fun _ => rfl)

/-- C5: when the required credential is absent from the environment at
startup, the process exits with code 1 (non-zero) before any item is
processed: the file system is untouched, no event occurs and no manifest is
written. -/
theorem claim_C5 (fs0 : List String) (p : String → Nat → ProviderResponse) :
    run_script none fs0 p = ⟨1, fs0, none, []⟩
    ∧ (run_script none fs0 p).exitCode ≠ 0 := ⟨rfl, by simp [run_script]⟩

set_option maxRecDepth 200000 in
/-- C3 counterexample: with the same always-erring provider on both runs
(no credential/network change, no files removed), the second run does NOT
yield all items in `skipped` — every item failed in run one, so no output
file exists and every item is re-attempted and fails again; `skipped` stays
empty. -/
theorem claim_C3_counterexample :
    (runCatalog TAROT_CARDS (fun _ _ => ProviderResponse.err)
        (runCatalog TAROT_CARDS (fun _ _ => ProviderResponse.err) []).fs).skipped = []
    ∧ "major_00_the_fool" ∈ TAROT_CARDS.map Card.code
    ∧ "major_00_the_fool" ∉ (runCatalog TAROT_CARDS (fun _ _ => ProviderResponse.err)
        (runCatalog TAROT_CARDS (fun _ _ => ProviderResponse.err) []).fs).skipped := by
  refine ⟨by decide, by decide, by decide⟩

/-- C3 (amended): if the first run ends with no failed item, a second run
with the same provider and no files removed records every item as skipped
and does nothing else (no request, no write, no sleep, no file change);
regardless of outcomes, a run never writes to a path that existed when it
started, and an item whose output file exists at run start is recorded
`Skipped` with no generation attempt issued for it. -/
theorem claim_C3 (fs0 : List String) (p : String → Nat → ProviderResponse) :
    ((runCatalog TAROT_CARDS p fs0).failed = [] →
      runCatalog TAROT_CARDS p (runCatalog TAROT_CARDS p fs0).fs
        = ⟨(runCatalog TAROT_CARDS p fs0).fs, [],
           TAROT_CARDS.map Card.code, [], []⟩)
    ∧ (∀ pa bts, REvent.write pa bts ∈ (runCatalog TAROT_CARDS p fs0).trace →
        pa ∉ fs0)
    ∧ (∀ card ∈ TAROT_CARDS, output_path card.code ∈ fs0 →
        card.code ∈ (runCatalog TAROT_CARDS p fs0).skipped
        ∧ ∀ fp, REvent.request (output_path card.code) fp
            ∉ (runCatalog TAROT_CARDS p fs0).trace) := by
  refine ⟨?_, ?_, ?_⟩
  · intro hfail
    have hcov : ∀ card ∈ TAROT_CARDS,
        output_path card.code ∈ (runCatalog TAROT_CARDS p fs0).fs := by
      intro card hc
      rcases runItems_covers p TAROT_CARDS ⟨fs0, [], [], [], []⟩ card hc
        with h | h
      · exact h
      · have h' : card.code ∈ (runCatalog TAROT_CARDS p fs0).failed := h
        rw [hfail] at h'
        simp at h'
    obtain ⟨fs1, hfs1⟩ : ∃ x, (runCatalog TAROT_CARDS p fs0).fs = x := ⟨_, rfl⟩
    rw [hfs1] at hcov ⊢
    have := runItems_all_skipped p TAROT_CARDS ⟨fs1, [], [], [], []⟩ hcov
    simpa [runCatalog] using this
  · intro pa bts h
    rcases runItems_write_new p TAROT_CARDS ⟨fs0, [], [], [], []⟩ pa bts h
      with h2 | h2
    · simp at h2
    · exact h2
  · intro card hcard hmem
    refine ⟨runItems_skip_recorded p TAROT_CARDS ⟨fs0, [], [], [], []⟩
      card hcard hmem, ?_⟩
    intro fp hreq
    rcases runItems_request_new p TAROT_CARDS ⟨fs0, [], [], [], []⟩
      (output_path card.code) fp hreq with h2 | h2
    · simp at h2
    · exact h2 hmem

set_option maxRecDepth 200000 in
/-- Witness for C3: the always-succeeding provider, starting with the first
card's output file already on disk; the first run fails nothing, so the
second run skips all 78 items and the pre-existing item was skipped without
any request. -/
theorem claim_C3_witness :
    runCatalog TAROT_CARDS (fun _ _ => ProviderResponse.ok (some [0]))
        (runCatalog TAROT_CARDS (fun _ _ => ProviderResponse.ok (some [0]))
          [output_path "major_00_the_fool"]).fs
      = ⟨(runCatalog TAROT_CARDS (fun _ _ => ProviderResponse.ok (some [0]))
          [output_path "major_00_the_fool"]).fs, [],
         TAROT_CARDS.map Card.code, [], []⟩
    ∧ "major_00_the_fool" ∈ (runCatalog TAROT_CARDS
        (fun _ _ => ProviderResponse.ok (some [0]))
        [output_path "major_00_the_fool"]).skipped
    ∧ REvent.request (output_path "major_00_the_fool") "x"
        ∉ (runCatalog TAROT_CARDS (fun _ _ => ProviderResponse.ok (some [0]))
          [output_path "major_00_the_fool"]).trace :=
  ⟨(claim_C3 [output_path "major_00_the_fool"]
      (fun _ _ => ProviderResponse.ok (some [0]))).1 (by decide),
   ((claim_C3 [output_path "major_00_the_fool"]
      (fun _ _ => ProviderResponse.ok (some [0]))).2.2
      ⟨"major_00_the_fool", "The Fool", "A young traveler in colorful clothes standing at the edge of a cliff, looking up at the sky with innocent joy, a small white dog at their feet, carrying a small bag on a stick, mountains in background, sun rising"⟩
      (by decide) (by decide)).1,
   ((claim_C3 [output_path "major_00_the_fool"]
      (fun _ _ => ProviderResponse.ok (some [0]))).2.2
      ⟨"major_00_the_fool", "The Fool", "A young traveler in colorful clothes standing at the edge of a cliff, looking up at the sky with innocent joy, a small white dog at their feet, carrying a small bag on a stick, mountains in background, sun rising"⟩
      (by decide) (by decide)).2 "x"⟩

set_option maxRecDepth 1000000 in
/-- C6 counterexample: with the first card's output file already present
and an always-succeeding provider, the run performs only 76 inter-item
pauses instead of the 77 the claim requires for 78 items: the `continue` in
the skip branch bypasses the pause after the skipped first item. -/
theorem claim_C6_counterexample :
    (runCatalog TAROT_CARDS (fun _ _ => ProviderResponse.ok (some [0]))
        [output_path "major_00_the_fool"]).trace.count (REvent.sleep 2)
      ≠ TAROT_CARDS.length - 1
    ∧ (runCatalog TAROT_CARDS (fun _ _ => ProviderResponse.ok (some [0]))
        [output_path "major_00_the_fool"]).trace.count (REvent.sleep 2) = 76
    ∧ TAROT_CARDS.length = 78 := by
  refine ⟨by decide, by decide, by decide⟩

/-- C6 (amended): the 2-unit inter-item pause occurs exactly after the
non-last items that are actually attempted (outcome Generated or Failed);
a skipped item's `continue` bypasses the pause, and no pause follows the
last item: over any run, the number of 2-unit sleeps equals the number of
non-last catalog items whose output file was absent at run start. -/
theorem claim_C6 (fs0 : List String) (p : String → Nat → ProviderResponse) :
    (runCatalog TAROT_CARDS p fs0).trace.count (REvent.sleep 2)
      = List.countP (fun c => decide (output_path c.code ∉ fs0))
          TAROT_CARDS.dropLast := by
  have := runItems_sleep2 p TAROT_CARDS ⟨fs0, [], [], [], []⟩ fs0 []
    (by simp) (by simp) tarot_paths_nodup
  simpa [runCatalog] using this

/-- C7 counterexample: the success-branch write is not atomic — among the
contents visible at the output path during the write there is a state (the
empty file right after `open(..., "wb")`) that is not the full payload, so
it is not true that the path can never be seen with a partial payload. -/
theorem claim_C7_counterexample :
    ¬ ∀ s ∈ writeSteps [1], s = [1] := by decide

/-- C7 (amended): on a successful OK response the decoded payload is written
directly to the output path with a plain `open`/`write` (no temporary file,
no rename): an uninterrupted write ends with exactly the payload at the
path, but the intermediate states are the proper prefixes of the payload,
including the empty content right after opening, so an interrupted write can
leave a partial payload at the path. -/
theorem claim_C7 (prompt name pa : String) (p : Nat → ProviderResponse)
    (bytes : List Nat) (h0 : p 0 = .ok (some bytes)) :
    generate_image prompt name pa p
      = (true, [.request pa (full_prompt prompt name), .write pa bytes])
    ∧ [] ∈ writeSteps bytes
    ∧ bytes ∈ writeSteps bytes
    ∧ ∀ s ∈ writeSteps bytes, ∃ t, s ++ t = bytes := by
  refine ⟨generate_image_first_ok prompt name pa p bytes h0, ?_, ?_, ?_⟩
  · simp only [writeSteps, List.mem_map]
    exact ⟨0, List.mem_range.mpr (Nat.succ_pos _), rfl⟩
  · simp only [writeSteps, List.mem_map]
    exact ⟨bytes.length, List.mem_range.mpr (Nat.lt_succ_self _),
      List.take_length bytes⟩
  · intro s hs
    simp only [writeSteps, List.mem_map] at hs
    obtain ⟨k, hk, hks⟩ := hs
    exact ⟨bytes.drop k, by rw [← hks]; exact List.take_append_drop k bytes⟩

/-- Witness for C7 at a concrete successful response with payload `[1, 2]`. -/
theorem claim_C7_witness :
    generate_image "p3" "n3" "c3.png" (fun _ => ProviderResponse.ok (some [1, 2]))
      = (true, [.request "c3.png" (full_prompt "p3" "n3"),
                .write "c3.png" [1, 2]])
    ∧ [] ∈ writeSteps [1, 2]
    ∧ ∃ t, [1] ++ t = [1, 2] :=
  ⟨(claim_C7 "p3" "n3" "c3.png" (fun _ => ProviderResponse.ok (some [1, 2]))
      [1, 2] rfl).1,
   (claim_C7 "p3" "n3" "c3.png" (fun _ => ProviderResponse.ok (some [1, 2]))
      [1, 2] rfl).2.1,
   (claim_C7 "p3" "n3" "c3.png" (fun _ => ProviderResponse.ok (some [1, 2]))
      [1, 2] rfl).2.2.2 [1] (by decide)⟩

/-- C8: a provider that rate-limits exactly once and then succeeds yields
one request, the unconditional 60-unit cooldown, a second request and the
successful write; in a run the item ends up recorded as `Generated`. -/
theorem claim_C8 (prompt name pa : String) (p : Nat → ProviderResponse)
    (bytes : List Nat) (h0 : p 0 = .rateLimited) (h1 : p 1 = .ok (some bytes))
    (card : Card) (P : String → Nat → ProviderResponse)
    (hP0 : P card.code 0 = .rateLimited)
    (hP1 : P card.code 1 = .ok (some bytes)) :
    generate_image prompt name pa p
      = (true, [.request pa (full_prompt prompt name), .sleep 60,
                .request pa (full_prompt prompt name), .write pa bytes])
    ∧ (runCatalog [card] P []).generated = [card.code] := by
  refine ⟨generate_image_rl_then_ok prompt name pa p bytes h0 h1, ?_⟩
  rw [runCatalog_single_gen card P
    (by rw [generate_image_rl_then_ok _ _ _ _ _ hP0 hP1])]

/-- Witness for C8 at a concrete rate-limit-once-then-succeed provider. -/
theorem claim_C8_witness :
    generate_image "p5" "n5" "c5.png"
        (fun n => if n = 0 then ProviderResponse.rateLimited
          else ProviderResponse.ok (some [7]))
      = (true, [.request "c5.png" (full_prompt "p5" "n5"), .sleep 60,
                .request "c5.png" (full_prompt "p5" "n5"),
                .write "c5.png" [7]])
    ∧ (runCatalog [⟨"c5", "n5", "p5"⟩]
        (fun _ n => if n = 0 then ProviderResponse.rateLimited
          else ProviderResponse.ok (some [7])) []).generated = ["c5"] :=
  claim_C8 "p5" "n5" "c5.png"
    (fun n => if n = 0 then ProviderResponse.rateLimited
      else ProviderResponse.ok (some [7])) [7] rfl rfl
    ⟨"c5", "n5", "p5"⟩
    (fun _ n => if n = 0 then ProviderResponse.rateLimited
      else ProviderResponse.ok (some [7])) rfl rfl

/-- C9: the persisted manifest is exactly `{total, generated, skipped,
failed}` derived from the per-item outcomes, each bucket a subsequence of
the catalog's codes (hence in catalog order), with `total` the catalog
length; in particular, for the 4-item catalog where the provider succeeds
for A and B, rate-limits once then succeeds for C, and permanently fails
for D, the manifest is `{total: 4, generated: [A, B, C], skipped: [],
failed: [D]}`. -/
theorem claim_C9 (fs0 : List String) (p : String → Nat → ProviderResponse) :
    List.Sublist (mainManifest p fs0).generated (TAROT_CARDS.map Card.code)
    ∧ List.Sublist (mainManifest p fs0).skipped (TAROT_CARDS.map Card.code)
    ∧ List.Sublist (mainManifest p fs0).failed (TAROT_CARDS.map Card.code)
    ∧ (mainManifest p fs0).total = TAROT_CARDS.length
    ∧ mkManifest
        [⟨"A", "na", "pa"⟩, ⟨"B", "nb", "pb"⟩, ⟨"C", "nc", "pc"⟩,
         ⟨"D", "nd", "pd"⟩]
        (runCatalog
          [⟨"A", "na", "pa"⟩, ⟨"B", "nb", "pb"⟩, ⟨"C", "nc", "pc"⟩,
           ⟨"D", "nd", "pd"⟩]
          (fun code n =>
            if code = "A" then ProviderResponse.ok (some [1])
            else if code = "B" then ProviderResponse.ok (some [2])
            else if code = "C" then
              (if n = 0 then ProviderResponse.rateLimited
               else ProviderResponse.ok (some [3]))
            else ProviderResponse.err) [])
      = ⟨4, ["A", "B", "C"], [], ["D"]⟩ := by
  obtain ⟨dg, ds, df, hg, hs, hf, sg, ss, sf⟩ :=
    runItems_sublists p TAROT_CARDS ⟨fs0, [], [], [], []⟩
  refine ⟨?_, ?_, ?_, rfl, by decide⟩
  · have h : (mainManifest p fs0).generated = dg := by
      simpa [mainManifest, mkManifest, runCatalog] using hg
    rw [h]; exact sg
  · have h : (mainManifest p fs0).skipped = ds := by
      simpa [mainManifest, mkManifest, runCatalog] using hs
    rw [h]; exact ss
  · have h : (mainManifest p fs0).failed = df := by
      simpa [mainManifest, mkManifest, runCatalog] using hf
    rw [h]; exact sf

/-- C10: a 200 response with a malformed body (missing field or undecodable
image data) raises during extraction and is handled by the same `except`
branch as any transient error: it never aborts the run, never records
`Generated`, writes nothing, sleeps the short 10-unit delay when attempts
remain, and counts against the 3-attempt budget — replacing every
malformed-OK response by a generic error leaves the attempt loop's behaviour
unchanged, and an always-malformed provider produces exactly the
always-erring trace and a failure. -/
theorem claim_C10 (prompt name pa : String) (p : Nat → ProviderResponse)
    (rc : Nat) (l : List Nat) (q : Nat → ProviderResponse)
    (hq : ∀ n, q n = .ok none) :
    genAttempts (full_prompt prompt name) pa
        (fun n => match p n with | .ok none => .err | r => r) rc l
      = genAttempts (full_prompt prompt name) pa p rc l
    ∧ generate_image prompt name pa q
      = (false, [.request pa (full_prompt prompt name), .sleep 10,
                 .request pa (full_prompt prompt name), .sleep 10,
                 .request pa (full_prompt prompt name)]) :=
  ⟨genAttempts_ok_none_as_err (full_prompt prompt name) pa p rc l,
   generate_image_always_oknone prompt name pa q hq⟩

/-- Witness for C10 at a provider whose 200 responses are always malformed. -/
theorem claim_C10_witness :
    genAttempts (full_prompt "p6" "n6") "c6.png"
        (fun n => match (fun _ => ProviderResponse.ok none : Nat → ProviderResponse) n with
          | .ok none => .err | r => r) 3 [0, 1, 2]
      = genAttempts (full_prompt "p6" "n6") "c6.png"
          (fun _ => ProviderResponse.ok none) 3 [0, 1, 2]
    ∧ generate_image "p6" "n6" "c6.png" (fun _ => ProviderResponse.ok none)
      = (false, [.request "c6.png" (full_prompt "p6" "n6"), .sleep 10,
                 .request "c6.png" (full_prompt "p6" "n6"), .sleep 10,
                 .request "c6.png" (full_prompt "p6" "n6")]) :=
  claim_C10 "p6" "n6" "c6.png" (fun _ => ProviderResponse.ok none) 3 [0, 1, 2]
    (fun _ => ProviderResponse.ok none) (fun _ => rfl)
